import Mathlib

/-!
Verification of the VoxelBuster client network layer (`network_handler.py`,
`network/network_handler.py`, `main.py`).

Shallow embedding conventions:
* Bytes are `Nat` (values < 256 where it matters).
* The incoming TCP byte stream is modelled as a list of non-empty delivery
  chunks `List (List Nat)`: each `sock.recv` call hands over (a prefix of)
  the first buffered chunk; an exhausted chunk list models the peer closing
  the connection (`recv` returning zero bytes).
* `struct.pack`/`unpack` big-endian integers are explicit base-256 digit
  arithmetic; IEEE-754 float32 fields are carried as their 32-bit patterns
  (the codec never computes with the float values, it only moves the bits).
* Python exceptions (`ConnectionError`) become `Except String`.

Both protocol-handler variants in the repository are embedded: the fuller
`network/network_handler.py` (packet IDs 0x00–0x07, 88-byte add-entity) as
`handle_packet`, and the older `network_handler.py` (IDs 0x00–0x05,
24-byte add-entity) as `handle_packet_old`.
-/

namespace VoxelBuster

/-- Big-endian byte of `struct.pack "!B"`. -/
def packU8 (n : Nat) : List Nat := [n % 256]

/-- Big-endian 4-byte encoding of `struct.pack "!I"` (and the byte image of
an `"!f"` float field, carried as its 32-bit pattern). -/
def packU32 (n : Nat) : List Nat :=
  [n / 16777216 % 256, n / 65536 % 256, n / 256 % 256, n % 256]

/-- Big-endian 4-byte encoding of `struct.pack "!i"` (two's complement). -/
def packI32 (z : Int) : List Nat := packU32 (z % 4294967296).toNat

/-- Big-endian decoding of `struct.unpack "!I"` (also reads an `"!f"` field
as its 32-bit pattern). -/
def unpackU32 (bytes : List Nat) : Nat :=
  bytes.foldl (fun acc b => acc * 256 + b) 0

/-- Big-endian decoding of `struct.unpack "!i"` (two's complement). -/
def unpackI32 (bytes : List Nat) : Int :=
  let n := unpackU32 bytes
  if n < 2147483648 then (n : Int) else (n : Int) - 4294967296

/-- Decoding of a `struct.unpack "!b"` signed byte. -/
def unpackI8 (b : Nat) : Int :=
  if b < 128 then (b : Int) else (b : Int) - 256

/-- Python `bytes.rstrip(b"\x00")`: drop trailing zero bytes. -/
def rstripZeros (l : List Nat) : List Nat :=
  (l.reverse.dropWhile (fun b => b == 0)).reverse

/-- `struct.pack "!Ns"` of a byte field: truncate to `w` bytes, then pad on
the right with zero bytes up to `w`. -/
def packFixedBytes (w : Nat) (l : List Nat) : List Nat :=
  l.take w ++ List.replicate (w - l.length) 0

/-- Python `bytes.ljust(w, b"\x00")`: pad on the right up to width `w`. -/
def ljustZeros (w : Nat) (l : List Nat) : List Nat :=
  l ++ List.replicate (w - l.length) 0

/-- `NetworkHandler.recv_all(length)`: repeatedly call `sock.recv` for the
missing bytes, appending each delivery, until `length` bytes are
accumulated; a `recv` that returns no bytes raises
`ConnectionError("Socket connection broken")`.  The transport chunking is
explicit: each iteration consumes (a prefix of) the first buffered chunk,
any leftover of that chunk stays buffered for the next iteration. -/
def recv_all (chunks : List (List Nat)) (needed : Nat) :
    Except String (List Nat × List (List Nat)) :=
  match chunks with
  | [] =>
    if needed = 0 then Except.ok ([], []) else Except.error "Socket connection broken"
  | c :: rest =>
    if needed = 0 then Except.ok ([], c :: rest)
    else if c = [] then Except.error "Socket connection broken"
    else if needed ≤ c.length then
      Except.ok (c.take needed, if needed < c.length then c.drop needed :: rest else rest)
    else
      match recv_all rest (needed - c.length) with
      | Except.error e => Except.error e
      | Except.ok (more, rest2) => Except.ok (c ++ more, rest2)

/-- One decoded inbound packet (or the outcome of a failed decode), as the
handlers of both `NetworkHandler` variants produce it. -/
inductive Event where
  | identification (eid : Nat)
  | addEntity (eid x y z yaw pitch : Nat) (name : List Nat)
  | addEntityOld (eid x y z yaw pitch : Nat)
  | removeEntity (eid : Nat)
  | updateEntity (eid x y z yaw pitch : Nat)
  | chunk (x y z : Int) (blocks : List Nat)
  | monoTypeChunk (x y z : Int) (blockType : Int)
  | chat (message : List Nat)
  | entityMetadata (eid : Nat) (name : List Nat)
  | unknownId (pid : Nat)
  | lengthMismatch (pid : Nat)
  deriving DecidableEq

/-- True exactly on the `logger.error("Failed to receive the complete …")`
branch outcome of a handler. -/
def Event.isMismatch : Event → Bool
  | .lengthMismatch _ => true
  | _ => false

/-- The packet ID whose handler produced this event (`none` for the
unknown-ID warning and for the length-mismatch error branch). -/
def Event.kindId : Event → Option Nat
  | .identification _ => some 0
  | .addEntity _ _ _ _ _ _ _ => some 1
  | .addEntityOld _ _ _ _ _ _ => some 1
  | .removeEntity _ => some 2
  | .updateEntity _ _ _ _ _ _ => some 3
  | .chunk _ _ _ _ => some 4
  | .monoTypeChunk _ _ _ _ => some 5
  | .chat _ => some 6
  | .entityMetadata _ _ => some 7
  | .unknownId _ => none
  | .lengthMismatch _ => none

/-- Body of `handle_identification` after `recv_all`: length check, then
`struct.unpack("!I", data)`. -/
def processIdentification (data : List Nat) : Event :=
  if data.length = 4 then .identification (unpackU32 data) else .lengthMismatch 0

/-- Body of the `network/` variant `handle_add_entity` after `recv_all`:
length check, then `struct.unpack("!Ifffff64s", data)` with the name
decoded and `rstrip`-ped of NUL bytes. -/
def processAddEntity (data : List Nat) : Event :=
  if data.length = 88 then
    .addEntity (unpackU32 (data.take 4)) (unpackU32 ((data.drop 4).take 4))
      (unpackU32 ((data.drop 8).take 4)) (unpackU32 ((data.drop 12).take 4))
      (unpackU32 ((data.drop 16).take 4)) (unpackU32 ((data.drop 20).take 4))
      (rstripZeros (data.drop 24))
  else .lengthMismatch 1

/-- Body of the old-variant `handle_add_entity` after `recv_all`: length
check, then `struct.unpack("!Ifffff", data)`. -/
def processAddEntityOld (data : List Nat) : Event :=
  if data.length = 24 then
    .addEntityOld (unpackU32 (data.take 4)) (unpackU32 ((data.drop 4).take 4))
      (unpackU32 ((data.drop 8).take 4)) (unpackU32 ((data.drop 12).take 4))
      (unpackU32 ((data.drop 16).take 4)) (unpackU32 ((data.drop 20).take 4))
  else .lengthMismatch 1

/-- Body of `handle_remove_entity` after `recv_all`. -/
def processRemoveEntity (data : List Nat) : Event :=
  if data.length = 4 then .removeEntity (unpackU32 data) else .lengthMismatch 2

/-- Body of `handle_update_entity` after `recv_all`: length check, then
`struct.unpack("!Ifffff", data)`. -/
def processUpdateEntity (data : List Nat) : Event :=
  if data.length = 24 then
    .updateEntity (unpackU32 (data.take 4)) (unpackU32 ((data.drop 4).take 4))
      (unpackU32 ((data.drop 8).take 4)) (unpackU32 ((data.drop 12).take 4))
      (unpackU32 ((data.drop 16).take 4)) (unpackU32 ((data.drop 20).take 4))
  else .lengthMismatch 3

/-- Body of `handle_receive_chunk` after `recv_all`: length check, then
`struct.unpack("!iii4096s", data)`. -/
def processReceiveChunk (data : List Nat) : Event :=
  if data.length = 4108 then
    .chunk (unpackI32 (data.take 4)) (unpackI32 ((data.drop 4).take 4))
      (unpackI32 ((data.drop 8).take 4)) (data.drop 12)
  else .lengthMismatch 4

/-- Body of `handle_receive_mono_type_chunk` after `recv_all`: length
check, then `struct.unpack("!iiib", data)`. -/
def processReceiveMonoTypeChunk (data : List Nat) : Event :=
  if data.length = 13 then
    .monoTypeChunk (unpackI32 (data.take 4)) (unpackI32 ((data.drop 4).take 4))
      (unpackI32 ((data.drop 8).take 4)) (unpackI8 (data.getD 12 0))
  else .lengthMismatch 5

/-- Body of `handle_chat` after `recv_all`: length check, then decode and
`rstrip` NUL bytes. -/
def processChat (data : List Nat) : Event :=
  if data.length = 4096 then .chat (rstripZeros data) else .lengthMismatch 6

/-- Body of `handle_update_entity_metadata` after `recv_all`: length check,
then `struct.unpack("!I64s", data)` with the name `rstrip`-ped. -/
def processUpdateEntityMetadata (data : List Nat) : Event :=
  if data.length = 68 then
    .entityMetadata (unpackU32 (data.take 4)) (rstripZeros (data.drop 4))
  else .lengthMismatch 7

/-- Common shape of every inbound handler: `data = recv_all(width)` then
the post-read body; a `ConnectionError` from `recv_all` propagates. -/
def runHandler (width : Nat) (body : List Nat → Event)
    (chunks : List (List Nat)) : Except String (Event × List (List Nat)) :=
  match recv_all chunks width with
  | Except.error e => Except.error e
  | Except.ok (data, rest) => Except.ok (body data, rest)

def handle_identification := runHandler 4 processIdentification
def handle_add_entity := runHandler 88 processAddEntity
def handle_add_entity_old := runHandler 24 processAddEntityOld
def handle_remove_entity := runHandler 4 processRemoveEntity
def handle_update_entity := runHandler 24 processUpdateEntity
def handle_receive_chunk := runHandler 4108 processReceiveChunk
def handle_receive_mono_type_chunk := runHandler 13 processReceiveMonoTypeChunk
def handle_chat := runHandler 4096 processChat
def handle_update_entity_metadata := runHandler 68 processUpdateEntityMetadata

/-- `NetworkHandler.handle_packet` of the `network/` variant: dispatch on
the packet ID, warn-and-ignore for IDs outside the table. -/
def handle_packet (pid : Nat) (chunks : List (List Nat)) :
    Except String (Event × List (List Nat)) :=
  if pid = 0 then handle_identification chunks
  else if pid = 1 then handle_add_entity chunks
  else if pid = 2 then handle_remove_entity chunks
  else if pid = 3 then handle_update_entity chunks
  else if pid = 4 then handle_receive_chunk chunks
  else if pid = 5 then handle_receive_mono_type_chunk chunks
  else if pid = 6 then handle_chat chunks
  else if pid = 7 then handle_update_entity_metadata chunks
  else Except.ok (.unknownId pid, chunks)

/-- `NetworkHandler.handle_packet` of the older top-level variant: IDs
0x00–0x05 only, 24-byte add-entity payload. -/
def handle_packet_old (pid : Nat) (chunks : List (List Nat)) :
    Except String (Event × List (List Nat)) :=
  if pid = 0 then handle_identification chunks
  else if pid = 1 then handle_add_entity_old chunks
  else if pid = 2 then handle_remove_entity chunks
  else if pid = 3 then handle_update_entity chunks
  else if pid = 4 then handle_receive_chunk chunks
  else if pid = 5 then handle_receive_mono_type_chunk chunks
  else Except.ok (.unknownId pid, chunks)

/-- Fixed inbound payload width per packet ID (`network/` variant table). -/
def packetWidth (pid : Nat) : Nat :=
  if pid = 0 then 4
  else if pid = 1 then 88
  else if pid = 2 then 4
  else if pid = 3 then 24
  else if pid = 4 then 4108
  else if pid = 5 then 13
  else if pid = 6 then 4096
  else if pid = 7 then 68
  else 0

/-- `NetworkHandler.send_packet`: one message is the ID byte followed by
the payload. -/
def send_packet (packet_id : Nat) (data : List Nat) : List Nat :=
  packU8 packet_id ++ data

/-- Payload of the `network/` variant `send_update_entity`:
`struct.pack("!fffff", x, y, z, yaw, pitch)` — five float32 fields, no
entity ID. -/
def send_update_entity_payload (x y z yaw pitch : Nat) : List Nat :=
  packU32 x ++ packU32 y ++ packU32 z ++ packU32 yaw ++ packU32 pitch

/-- Payload of the old-variant `send_update_entity`:
`struct.pack("!Ifffff", entity_id, x, y, z, yaw, pitch)`. -/
def send_update_entity_payload_old (entity_id x y z yaw pitch : Nat) : List Nat :=
  packU32 entity_id ++ packU32 x ++ packU32 y ++ packU32 z ++ packU32 yaw ++ packU32 pitch

/-- One `struct.pack("!Biii", block_type, x, y, z)` record of a bulk edit. -/
def blockRecord (b : Nat × Int × Int × Int) : List Nat :=
  packU8 b.1 ++ packI32 b.2.1 ++ packI32 b.2.2.1 ++ packI32 b.2.2.2

/-- Payload built by `send_block_bulk_edit`: start from
`struct.pack("!I", len(blocks))` and append one 13-byte record per block. -/
def send_block_bulk_edit_payload (blocks : List (Nat × Int × Int × Int)) : List Nat :=
  blocks.foldl (fun data b => data ++ blockRecord b) (packU32 blocks.length)

/-- Full wire message of `send_block_bulk_edit` (ID byte 0x02 included). -/
def send_block_bulk_edit_message (blocks : List (Nat × Int × Int × Int)) : List Nat :=
  send_packet 2 (send_block_bulk_edit_payload blocks)

/-- Payload of `send_chat`: UTF-8 bytes of the message, `ljust`-padded with
NUL to 4096 and then sliced to `[:4096]`. -/
def send_chat_payload (message : List Nat) : List Nat :=
  (ljustZeros 4096 message).take 4096

/-- Full wire message of `send_chat` (ID byte 0x03 included). -/
def send_chat_message (message : List Nat) : List Nat :=
  send_packet 3 (send_chat_payload message)

/-- Payload of `send_client_metadata`:
`struct.pack("!B64s", render_distance, name.ljust(64, b"\x00"))`. -/
def send_client_metadata_payload (render_distance : Nat) (name : List Nat) : List Nat :=
  packU8 render_distance ++ packFixedBytes 64 (ljustZeros 64 name)

/-- Full wire message of `send_client_metadata` (ID byte 0x04 included). -/
def send_client_metadata_message (render_distance : Nat) (name : List Nat) : List Nat :=
  send_packet 4 (send_client_metadata_payload render_distance name)

/-- Joint state of the receive loop and its consumer-visible effects:
the `running` flag, the not-yet-delivered wire bytes (as transport
chunks), `NetworkHandler.entity_id`, whether `set_chunk_update_callback`
registered `GameClient.update_chunk`, the consumer's `network_queue`, the
consumer's voxel store (`GameClient.data` / `chunk_data_buffer`), and
whether the socket is still open. -/
structure LoopState where
  running : Bool
  chunks : List (List Nat)
  entityId : Option Nat
  callbackSet : Bool
  queue : List ((Int × Int × Int) × List Nat)
  voxelData : List Nat
  socketOpen : Bool
  deriving DecidableEq

/-- State effect of one handled packet.  `handle_identification` stores the
entity ID; `handle_receive_chunk` invokes the registered callback, which in
`main.py` (`GameClient.update_chunk`) only enqueues the event on
`network_queue`; every other handler only logs. -/
def applyEvent (st : LoopState) (ev : Event) : LoopState :=
  match ev with
  | .identification eid => { st with entityId := some eid }
  | .chunk x y z blocks =>
    if st.callbackSet then { st with queue := st.queue ++ [((x, y, z), blocks)] } else st
  | _ => st

/-- Result of `NetworkHandler.run`'s while loop (fuel-indexed). -/
inductive RunResult where
  | stoppedNormally (final : LoopState)
  | connectionBroken (final : LoopState)
  | outOfFuel (final : LoopState)
  deriving DecidableEq

/-- The `while self.running` loop of `NetworkHandler.run`: read one ID byte
(`receive_packet`), dispatch it, repeat.  A `ConnectionError` escapes the
loop (only `KeyboardInterrupt` is caught) and the `finally` block closes
the socket on every exit path. -/
def runLoop : Nat → LoopState → RunResult
  | 0, st => RunResult.outOfFuel st
  | fuel + 1, st =>
    if st.running then
      match recv_all st.chunks 1 with
      | Except.error _ => RunResult.connectionBroken { st with socketOpen := false }
      | Except.ok (idBytes, rest) =>
        match handle_packet (idBytes.headD 0) rest with
        | Except.error _ => RunResult.connectionBroken { st with socketOpen := false }
        | Except.ok (ev, rest2) => runLoop fuel (applyEvent { st with chunks := rest2 } ev)
    else RunResult.stoppedNormally { st with socketOpen := false }

/-! ### Helper lemmas -/

theorem take_len_append {n : Nat} (a b : List Nat) (h : a.length = n) :
    (a ++ b).take n = a := by
  subst h; exact List.take_left a b

theorem drop_len_append {n : Nat} (a b : List Nat) (h : a.length = n) :
    (a ++ b).drop n = b := by
  subst h; exact List.drop_left a b

theorem packU32_length (n : Nat) : (packU32 n).length = 4 := rfl

theorem packI32_length (z : Int) : (packI32 z).length = 4 := rfl

theorem unpack_packU32 (n : Nat) (h : n < 4294967296) :
    unpackU32 (packU32 n) = n := by
  simp only [unpackU32, packU32, List.foldl]
  omega

theorem unpack_packI32 (z : Int) (h1 : -2147483648 ≤ z) (h2 : z < 2147483648) :
    unpackI32 (packI32 z) = z := by
  have hlt : (z % 4294967296).toNat < 4294967296 := by omega
  simp only [unpackI32, packI32, unpack_packU32 _ hlt]
  omega

theorem dropWhile_replicate_zero (k : Nat) (l : List Nat) :
    (List.replicate k 0 ++ l).dropWhile (fun b => b == 0) =
      l.dropWhile (fun b => b == 0) := by
  induction k with
  | zero => rfl
  | succ k ih => simp [List.replicate_succ]

theorem rstripZeros_pad (m : List Nat) (k : Nat) (h : m.getLast? ≠ some 0) :
    rstripZeros (m ++ List.replicate k 0) = m := by
  unfold rstripZeros
  rw [List.reverse_append, List.reverse_replicate, dropWhile_replicate_zero]
  cases hrev : m.reverse with
  | nil => simp_all
  | cons a as =>
    have ha : a ≠ 0 := by
      have : m.getLast? = some a := by
        rw [← List.head?_reverse, hrev]; rfl
      intro hcontra; exact h (by rw [this, hcontra])
    rw [List.dropWhile_cons_of_neg (by simpa using ha), ← hrev, List.reverse_reverse]

theorem recv_all_length {chunks : List (List Nat)} {needed : Nat}
    {data : List Nat} {rest : List (List Nat)}
    (h : recv_all chunks needed = Except.ok (data, rest)) : data.length = needed := by
  induction chunks generalizing needed data rest with
  | nil =>
    unfold recv_all at h
    by_cases h0 : needed = 0 <;> simp [h0] at h
    simp [h.1.symm, h0]
  | cons c cs ih =>
    unfold recv_all at h
    by_cases h0 : needed = 0
    · simp [h0] at h ⊢; simp [h.1.symm]
    · rw [if_neg h0] at h
      by_cases hc : c = []
      · simp [hc] at h
      · rw [if_neg hc] at h
        by_cases hle : needed ≤ c.length
        · rw [if_pos hle] at h
          simp only [Except.ok.injEq, Prod.mk.injEq] at h
          rw [← h.1, List.length_take]; omega
        · rw [if_neg hle] at h
          cases hrec : recv_all cs (needed - c.length) with
          | error e => rw [hrec] at h; simp at h
          | ok p =>
            obtain ⟨more, rest2⟩ := p
            rw [hrec] at h
            simp only [Except.ok.injEq, Prod.mk.injEq] at h
            have := ih hrec
            rw [← h.1, List.length_append, this]; omega

theorem recv_all_ok_of_enough {chunks : List (List Nat)}
    (hne : ∀ c ∈ chunks, c ≠ []) (needed : Nat)
    (hlen : needed ≤ chunks.flatten.length) :
    ∃ rest, recv_all chunks needed = Except.ok (chunks.flatten.take needed, rest) ∧
      rest.flatten = chunks.flatten.drop needed ∧ ∀ c ∈ rest, c ≠ [] := by
  induction chunks generalizing needed with
  | nil =>
    simp only [List.flatten_nil, List.length_nil, Nat.le_zero] at hlen
    subst hlen
    exact ⟨[], rfl, by simp, by simp⟩
  | cons c cs ih =>
    have hc : c ≠ [] := hne c (by simp)
    by_cases h0 : needed = 0
    · subst h0
      exact ⟨c :: cs, by simp [recv_all], by simp, hne⟩
    · by_cases hle : needed ≤ c.length
      · refine ⟨if needed < c.length then c.drop needed :: cs else cs, ?_, ?_, ?_⟩
        · unfold recv_all
          rw [if_neg h0, if_neg hc, if_pos hle]
          have htk : (c ++ cs.flatten).take needed = c.take needed :=
            List.take_append_of_le_length hle
          simp [htk]
        · by_cases hlt : needed < c.length
          · simp only [if_pos hlt, List.flatten_cons]
            rw [List.drop_append_of_le_length hle]
          · have heq : needed = c.length := by omega
            rw [if_neg hlt]
            simp only [List.flatten_cons, heq]
            rw [List.drop_left]
        · intro d hd
          by_cases hlt : needed < c.length
          · rw [if_pos hlt] at hd
            rcases List.mem_cons.mp hd with rfl | hd2
            · simp only [ne_eq, ← List.length_eq_zero]
              rw [List.length_drop]; omega
            · exact hne d (by simp [hd2])
          · rw [if_neg hlt] at hd
            exact hne d (by simp [hd])
      · have hlen2 : needed - c.length ≤ cs.flatten.length := by
          simp only [List.flatten_cons, List.length_append] at hlen; omega
        obtain ⟨rest, hok, hjoin, hrne⟩ :=
          ih (fun d hd => hne d (by simp [hd])) (needed - c.length) hlen2
        refine ⟨rest, ?_, ?_, hrne⟩
        · unfold recv_all
          rw [if_neg h0, if_neg hc, if_neg hle, hok]
          have htk : (c ++ cs.flatten).take (c.length + (needed - c.length)) =
              c ++ cs.flatten.take (needed - c.length) := List.take_append _
          rw [show c.length + (needed - c.length) = needed by omega] at htk
          simp [htk]
        · rw [hjoin]
          have hdp : (c ++ cs.flatten).drop (c.length + (needed - c.length)) =
              cs.flatten.drop (needed - c.length) := List.drop_append _
          rw [show c.length + (needed - c.length) = needed by omega] at hdp
          simp only [List.flatten_cons]
          rw [hdp]

theorem recv_all_err_of_short {chunks : List (List Nat)}
    (hne : ∀ c ∈ chunks, c ≠ []) (needed : Nat)
    (hlen : chunks.flatten.length < needed) :
    recv_all chunks needed = Except.error "Socket connection broken" := by
  induction chunks generalizing needed with
  | nil =>
    have h0 : needed ≠ 0 := by simp at hlen; omega
    simp [recv_all, h0]
  | cons c cs ih =>
    have hc : c ≠ [] := hne c (by simp)
    simp only [List.flatten_cons, List.length_append] at hlen
    have h0 : needed ≠ 0 := by omega
    have hle : ¬ needed ≤ c.length := by omega
    unfold recv_all
    rw [if_neg h0, if_neg hc, if_neg hle,
      ih (fun d hd => hne d (by simp [hd])) (needed - c.length) (by omega)]

theorem runHandler_spec (width : Nat) (body : List Nat → Event)
    {chunks : List (List Nat)} (hne : ∀ c ∈ chunks, c ≠ [])
    (hlen : width ≤ chunks.flatten.length) :
    ∃ rest, runHandler width body chunks =
        Except.ok (body (chunks.flatten.take width), rest) ∧
      rest.flatten = chunks.flatten.drop width ∧ ∀ c ∈ rest, c ≠ [] := by
  obtain ⟨rest, hok, hjoin, hrne⟩ := recv_all_ok_of_enough hne width hlen
  exact ⟨rest, by simp [runHandler, hok], hjoin, hrne⟩

theorem runHandler_no_mismatch {width : Nat} {body : List Nat → Event}
    {chunks : List (List Nat)} {ev : Event} {rest : List (List Nat)}
    (hbody : ∀ d : List Nat, d.length = width → (body d).isMismatch = false)
    (h : runHandler width body chunks = Except.ok (ev, rest)) :
    ev.isMismatch = false := by
  unfold runHandler at h
  cases hr : recv_all chunks width with
  | error e => rw [hr] at h; simp at h
  | ok p =>
    obtain ⟨data, rest2⟩ := p
    rw [hr] at h
    simp only [Except.ok.injEq, Prod.mk.injEq] at h
    rw [← h.1]
    exact hbody data (recv_all_length hr)

theorem runHandler_kind (width : Nat) (body : List Nat → Event)
    {chunks : List (List Nat)} (hne : ∀ c ∈ chunks, c ≠ [])
    (hlen : width ≤ chunks.flatten.length) (k : Nat)
    (hbody : ∀ d : List Nat, d.length = width → (body d).kindId = some k) :
    ∃ ev rest, runHandler width body chunks = Except.ok (ev, rest) ∧
      ev.kindId = some k ∧ rest.flatten = chunks.flatten.drop width := by
  obtain ⟨rest, hok, hjoin, _⟩ := runHandler_spec width body hne hlen
  refine ⟨_, rest, hok, hbody _ ?_, hjoin⟩
  rw [List.length_take]; omega

theorem handle_packet_unknown (pid : Nat) (h : 8 ≤ pid)
    (cs : List (List Nat)) :
    handle_packet pid cs = Except.ok (Event.unknownId pid, cs) := by
  unfold handle_packet
  split_ifs <;> first | rfl | (exfalso; omega)

/-! ### Claim theorems -/

/-- Claim C1: for every way the transport splits the incoming byte stream
into non-empty chunks, `recv_all n` returns exactly the first `n` bytes of
the stream (looping over partial reads), and if the stream is exhausted
before `n` bytes are accumulated (a `recv` returning zero bytes) it raises
the broken-connection error; an `ok` result never has fewer (or more) than
`n` bytes. -/
theorem recv_all_reads_exactly (chunks : List (List Nat)) (n : Nat)
    (_hn : 1 ≤ n) (hne : ∀ c ∈ chunks, c ≠ []) :
    (n ≤ chunks.flatten.length →
      ∃ rest, recv_all chunks n = Except.ok (chunks.flatten.take n, rest) ∧
        rest.flatten = chunks.flatten.drop n) ∧
    (chunks.flatten.length < n →
      recv_all chunks n = Except.error "Socket connection broken") ∧
    (∀ data rest, recv_all chunks n = Except.ok (data, rest) → data.length = n) := by
  refine ⟨fun h => ?_, fun h => recv_all_err_of_short hne n h,
    fun data rest h => recv_all_length h⟩
  obtain ⟨rest, hok, hjoin, _⟩ := recv_all_ok_of_enough hne n h
  exact ⟨rest, hok, hjoin⟩

theorem recv_all_reads_exactly_witness :
    (∃ rest, recv_all [[10], [20], [30]] 2 =
        Except.ok (([[10], [20], [30]] : List (List Nat)).flatten.take 2, rest) ∧
      rest.flatten = ([[10], [20], [30]] : List (List Nat)).flatten.drop 2) ∧
    recv_all [[10], [20]] 3 = Except.error "Socket connection broken" :=
  ⟨(recv_all_reads_exactly [[10], [20], [30]] 2 (by decide) (by decide)).1 (by decide),
   (recv_all_reads_exactly [[10], [20]] 3 (by decide) (by decide)).2.1 (by decide)⟩

/-- Claim C2: for every packet ID 0x00–0x07, `handle_packet` reads exactly
the fixed payload width assigned to that ID (0x00: 4, 0x01: 88-byte
add-entity payload, 0x02: 4, 0x03: 24, 0x04: 4108, 0x05: 13, 0x06: 4096,
0x07: 68) and routes the decoded payload to that ID's handler (the decoded
event carries that ID's kind). -/
theorem handle_packet_dispatch (pid : Nat) (chunks : List (List Nat))
    (hpid : pid ≤ 7) (hne : ∀ c ∈ chunks, c ≠ [])
    (hlen : packetWidth pid ≤ chunks.flatten.length) :
    ∃ ev rest, handle_packet pid chunks = Except.ok (ev, rest) ∧
      ev.kindId = some pid ∧ rest.flatten = chunks.flatten.drop (packetWidth pid) := by
  interval_cases pid
  · simp only [show packetWidth 0 = 4 from rfl] at hlen ⊢
    simp only [handle_packet, if_pos rfl, handle_identification]
    exact runHandler_kind 4 processIdentification hne hlen 0
      (fun d hd => by simp [processIdentification, hd, Event.kindId])
  · simp only [show packetWidth 1 = 88 from rfl] at hlen ⊢
    simp only [handle_packet, handle_add_entity]
    norm_num
    exact runHandler_kind 88 processAddEntity hne hlen 1
      (fun d hd => by simp [processAddEntity, hd, Event.kindId])
  · simp only [show packetWidth 2 = 4 from rfl] at hlen ⊢
    simp only [handle_packet, handle_remove_entity]
    norm_num
    exact runHandler_kind 4 processRemoveEntity hne hlen 2
      (fun d hd => by simp [processRemoveEntity, hd, Event.kindId])
  · simp only [show packetWidth 3 = 24 from rfl] at hlen ⊢
    simp only [handle_packet, handle_update_entity]
    norm_num
    exact runHandler_kind 24 processUpdateEntity hne hlen 3
      (fun d hd => by simp [processUpdateEntity, hd, Event.kindId])
  · simp only [show packetWidth 4 = 4108 from rfl] at hlen ⊢
    simp only [handle_packet, handle_receive_chunk]
    norm_num
    exact runHandler_kind 4108 processReceiveChunk hne hlen 4
      (fun d hd => by simp [processReceiveChunk, hd, Event.kindId])
  · simp only [show packetWidth 5 = 13 from rfl] at hlen ⊢
    simp only [handle_packet, handle_receive_mono_type_chunk]
    norm_num
    exact runHandler_kind 13 processReceiveMonoTypeChunk hne hlen 5
      (fun d hd => by simp [processReceiveMonoTypeChunk, hd, Event.kindId])
  · simp only [show packetWidth 6 = 4096 from rfl] at hlen ⊢
    simp only [handle_packet, handle_chat]
    norm_num
    exact runHandler_kind 4096 processChat hne hlen 6
      (fun d hd => by simp [processChat, hd, Event.kindId])
  · simp only [show packetWidth 7 = 68 from rfl] at hlen ⊢
    simp only [handle_packet, handle_update_entity_metadata]
    norm_num
    exact runHandler_kind 68 processUpdateEntityMetadata hne hlen 7
      (fun d hd => by simp [processUpdateEntityMetadata, hd, Event.kindId])

theorem handle_packet_dispatch_witness :
    ∃ ev rest, handle_packet 0 [[1, 2, 3, 4]] = Except.ok (ev, rest) ∧
      ev.kindId = some 0 ∧
      rest.flatten = ([[1, 2, 3, 4]] : List (List Nat)).flatten.drop (packetWidth 0) :=
  handle_packet_dispatch 0 [[1, 2, 3, 4]] (by decide) (by decide) (by decide)

/-- Claim C6: for every packet ID outside the dispatch table (≥ 0x08),
`handle_packet` yields only the logged warning: it consumes no bytes from
the stream, the resulting event mutates no handler state, and the receive
loop's next iteration interprets the following byte as a fresh packet ID. -/
theorem unknown_id_ignored (pid : Nat) (chunks : List (List Nat))
    (st : LoopState) (h : 8 ≤ pid) :
    handle_packet pid chunks = Except.ok (Event.unknownId pid, chunks) ∧
    applyEvent st (Event.unknownId pid) = st ∧
    (∀ fuel rest, st.running = true → st.chunks = [pid] :: rest →
      runLoop (fuel + 1) st = runLoop fuel { st with chunks := rest }) := by
  refine ⟨handle_packet_unknown pid h chunks, rfl, ?_⟩
  intro fuel rest hrun hchunks
  have hrecv : recv_all st.chunks 1 = Except.ok ([pid], rest) := by
    rw [hchunks]; rfl
  simp only [runLoop, hrun, if_true, hrecv, List.headD_cons,
    handle_packet_unknown pid h rest]
  rfl

theorem unknown_id_ignored_witness :
    handle_packet 9 [[1]] = Except.ok (Event.unknownId 9, [[1]]) ∧
    applyEvent ⟨true, [[9], [1, 2, 3, 4]], none, false, [], [], true⟩
      (Event.unknownId 9) = ⟨true, [[9], [1, 2, 3, 4]], none, false, [], [], true⟩ ∧
    runLoop 1 ⟨true, [[9], [1, 2, 3, 4]], none, false, [], [], true⟩ =
      runLoop 0 { (⟨true, [[9], [1, 2, 3, 4]], none, false, [], [], true⟩ : LoopState)
                    with chunks := [[1, 2, 3, 4]] } := by
  obtain ⟨h1, h2, h3⟩ :=
    unknown_id_ignored 9 [[1]] ⟨true, [[9], [1, 2, 3, 4]], none, false, [], [], true⟩
      (by decide)
  exact ⟨h1, h2, h3 0 [[1, 2, 3, 4]] rfl rfl⟩

/-- Claim C10: the `logger.error` branch of every inbound packet handler is
unreachable: `recv_all` hands back exactly the requested number of bytes
whenever it returns, so the length-equality check always succeeds, in both
protocol-handler variants. -/
theorem length_check_unreachable (pid : Nat) (chunks : List (List Nat))
    (ev : Event) (rest : List (List Nat)) :
    (handle_packet pid chunks = Except.ok (ev, rest) → ev.isMismatch = false) ∧
    (handle_packet_old pid chunks = Except.ok (ev, rest) → ev.isMismatch = false) := by
  constructor
  · intro h
    unfold handle_packet at h
    split_ifs at h
    · exact runHandler_no_mismatch
        (fun d hd => by simp [processIdentification, hd, Event.isMismatch]) h
    · exact runHandler_no_mismatch
        (fun d hd => by simp [processAddEntity, hd, Event.isMismatch]) h
    · exact runHandler_no_mismatch
        (fun d hd => by simp [processRemoveEntity, hd, Event.isMismatch]) h
    · exact runHandler_no_mismatch
        (fun d hd => by simp [processUpdateEntity, hd, Event.isMismatch]) h
    · exact runHandler_no_mismatch
        (fun d hd => by simp [processReceiveChunk, hd, Event.isMismatch]) h
    · exact runHandler_no_mismatch
        (fun d hd => by simp [processReceiveMonoTypeChunk, hd, Event.isMismatch]) h
    · exact runHandler_no_mismatch
        (fun d hd => by simp [processChat, hd, Event.isMismatch]) h
    · exact runHandler_no_mismatch
        (fun d hd => by simp [processUpdateEntityMetadata, hd, Event.isMismatch]) h
    · simp only [Except.ok.injEq, Prod.mk.injEq] at h
      rw [← h.1]; rfl
  · intro h
    unfold handle_packet_old at h
    split_ifs at h
    · exact runHandler_no_mismatch
        (fun d hd => by simp [processIdentification, hd, Event.isMismatch]) h
    · exact runHandler_no_mismatch
        (fun d hd => by simp [processAddEntityOld, hd, Event.isMismatch]) h
    · exact runHandler_no_mismatch
        (fun d hd => by simp [processRemoveEntity, hd, Event.isMismatch]) h
    · exact runHandler_no_mismatch
        (fun d hd => by simp [processUpdateEntity, hd, Event.isMismatch]) h
    · exact runHandler_no_mismatch
        (fun d hd => by simp [processReceiveChunk, hd, Event.isMismatch]) h
    · exact runHandler_no_mismatch
        (fun d hd => by simp [processReceiveMonoTypeChunk, hd, Event.isMismatch]) h
    · simp only [Except.ok.injEq, Prod.mk.injEq] at h
      rw [← h.1]; rfl

theorem length_check_unreachable_witness :
    (Event.removeEntity 16909060).isMismatch = false :=
  (length_check_unreachable 2 [[1, 2], [3, 4]]
      (Event.removeEntity 16909060) []).1 rfl

/-- Claim C3 counterexample: the `network/` variant `send_update_entity`
packs only the five float fields (`"!fffff"`, 20 bytes, no entity ID), so
its bytes do not decode under the 24-byte update-entity payload layout:
the decoder takes its length-mismatch branch instead of reproducing the
fields (shown at the bit patterns of the spec example x=1.5, y=2.0,
z=3.25, yaw=90.0, pitch=-10.0). -/
theorem update_entity_roundtrip_fails :
    processUpdateEntity (send_update_entity_payload
        1069547520 1073741824 1078984704 1119092736 3240099840) =
      Event.lengthMismatch 3 := by decide

/-- Claim C3 (amended): `decode(encode(message)) = message` holds for the
packet kinds where the source has both an encoder and a decoder of one
layout: the old-variant `send_update_entity` payload (entity_id-prefixed,
`"!Ifffff"`, 24 bytes) decodes under the update-entity layout back to the
same fields, and `send_chat` output decodes under `handle_chat` back to
the original message whenever the message fits the 4096-byte field and
has no trailing NUL byte; the `network/`-variant `send_update_entity`
output (20 bytes, no entity_id) fails the update-entity decode. -/
theorem packI32_append_ne_nil (a : Int) (tl : List Nat) :
    packI32 a ++ tl ≠ [] := by
  simp [packI32, packU32]

theorem take4_packU32_append (a : Nat) (tl : List Nat) :
    (packU32 a ++ tl).take 4 = packU32 a := rfl

theorem drop4_packU32_append (a : Nat) (tl : List Nat) :
    (packU32 a ++ tl).drop 4 = tl := rfl

theorem take4_packI32_append (a : Int) (tl : List Nat) :
    (packI32 a ++ tl).take 4 = packI32 a := rfl

theorem drop4_packI32_append (a : Int) (tl : List Nat) :
    (packI32 a ++ tl).drop 4 = tl := rfl

theorem take4_packU32_self (a : Nat) : (packU32 a).take 4 = packU32 a := rfl

theorem send_chat_payload_of_le (m : List Nat) (hm : m.length ≤ 4096) :
    send_chat_payload m = m ++ List.replicate (4096 - m.length) 0 := by
  have hlen : (ljustZeros 4096 m).length = 4096 := by
    simp only [ljustZeros, List.length_append, List.length_replicate]; omega
  unfold send_chat_payload
  nth_rewrite 1 [← hlen]
  rw [List.take_length]; rfl

theorem codec_roundtrip (eid x y z yaw pitch : Nat) (m : List Nat)
    (heid : eid < 4294967296) (hx : x < 4294967296) (hy : y < 4294967296)
    (hz : z < 4294967296) (hyaw : yaw < 4294967296) (hpitch : pitch < 4294967296)
    (hm : m.length ≤ 4096) (hlast : m.getLast? ≠ some 0) :
    processUpdateEntity (send_update_entity_payload_old eid x y z yaw pitch) =
      Event.updateEntity eid x y z yaw pitch ∧
    processChat (send_chat_payload m) = Event.chat m := by
  constructor
  · have hd4 : send_update_entity_payload_old eid x y z yaw pitch = packU32 eid ++
        (packU32 x ++ (packU32 y ++ (packU32 z ++ (packU32 yaw ++ packU32 pitch)))) := by
      simp [send_update_entity_payload_old, List.append_assoc]
    set d := send_update_entity_payload_old eid x y z yaw pitch
    have e4 : d.drop 4 = packU32 x ++ (packU32 y ++ (packU32 z ++ (packU32 yaw ++ packU32 pitch))) := by
      rw [hd4]; exact drop4_packU32_append _ _
    have e8 : d.drop 8 = packU32 y ++ (packU32 z ++ (packU32 yaw ++ packU32 pitch)) := by
      have h48 : (d.drop 4).drop 4 = d.drop 8 := by rw [List.drop_drop]
      rw [← h48, e4]; exact drop4_packU32_append _ _
    have e12 : d.drop 12 = packU32 z ++ (packU32 yaw ++ packU32 pitch) := by
      have h : (d.drop 8).drop 4 = d.drop 12 := by rw [List.drop_drop]
      rw [← h, e8]; exact drop4_packU32_append _ _
    have e16 : d.drop 16 = packU32 yaw ++ packU32 pitch := by
      have h : (d.drop 12).drop 4 = d.drop 16 := by rw [List.drop_drop]
      rw [← h, e12]; exact drop4_packU32_append _ _
    have e20 : d.drop 20 = packU32 pitch := by
      have h : (d.drop 16).drop 4 = d.drop 20 := by rw [List.drop_drop]
      rw [← h, e16]; exact drop4_packU32_append _ _
    have hlen : d.length = 24 := by
      rw [hd4]; simp [packU32_length]
    unfold processUpdateEntity
    rw [if_pos hlen, hd4, take4_packU32_append, ← hd4, e4, take4_packU32_append,
      e8, take4_packU32_append, e12, take4_packU32_append, e16, take4_packU32_append,
      e20, take4_packU32_self,
      unpack_packU32 eid heid, unpack_packU32 x hx, unpack_packU32 y hy,
      unpack_packU32 z hz, unpack_packU32 yaw hyaw, unpack_packU32 pitch hpitch]
  · rw [send_chat_payload_of_le m hm]
    unfold processChat
    rw [if_pos (by simp [List.length_append, List.length_replicate]; omega),
      rstripZeros_pad m _ hlast]

theorem codec_roundtrip_witness :
    processUpdateEntity (send_update_entity_payload_old 7
        1069547520 1073741824 1078984704 1119092736 3240099840) =
      Event.updateEntity 7 1069547520 1073741824 1078984704 1119092736 3240099840 ∧
    processChat (send_chat_payload [72, 105]) = Event.chat [72, 105] :=
  codec_roundtrip 7 1069547520 1073741824 1078984704 1119092736 3240099840 [72, 105]
    (by decide) (by decide) (by decide) (by decide) (by decide) (by decide)
    (by decide) (by decide)

/-- Claim C4: a well-formed chunk-data packet (ID 0x04) with position
(x, y, z) and a 4096-byte block array produces exactly one enqueued event
for the consumer, carrying exactly that position and the wire block bytes;
the handler (through the registered `GameClient.update_chunk` callback)
never touches the consumer's voxel store on the receive thread — the
state change is precisely one queue append. -/
theorem chunk_packet_enqueued (x y z : Int) (blocks : List Nat)
    (chunks : List (List Nat)) (st : LoopState)
    (hx1 : -2147483648 ≤ x) (hx2 : x < 2147483648)
    (hy1 : -2147483648 ≤ y) (hy2 : y < 2147483648)
    (hz1 : -2147483648 ≤ z) (hz2 : z < 2147483648)
    (hblocks : blocks.length = 4096)
    (hne : ∀ c ∈ chunks, c ≠ [])
    (hwire : chunks.flatten = packI32 x ++ (packI32 y ++ (packI32 z ++ blocks)))
    (hcb : st.callbackSet = true) :
    ∃ rest, handle_packet 4 chunks = Except.ok (Event.chunk x y z blocks, rest) ∧
      rest.flatten = [] ∧
      applyEvent st (Event.chunk x y z blocks) =
        { st with queue := st.queue ++ [((x, y, z), blocks)] } ∧
      (applyEvent st (Event.chunk x y z blocks)).voxelData = st.voxelData := by
  have hlen : chunks.flatten.length = 4108 := by
    rw [hwire]; simp [packI32_length, hblocks]
  obtain ⟨rest, hok, hjoin, _⟩ :=
    runHandler_spec 4108 processReceiveChunk hne (le_of_eq hlen.symm)
  have htake : chunks.flatten.take 4108 = chunks.flatten := by
    rw [← hlen, List.take_length]
  have hdec : processReceiveChunk chunks.flatten = Event.chunk x y z blocks := by
    have e4 : chunks.flatten.drop 4 = packI32 y ++ (packI32 z ++ blocks) := by
      rw [hwire]; exact drop4_packI32_append _ _
    have e8 : chunks.flatten.drop 8 = packI32 z ++ blocks := by
      have h : (chunks.flatten.drop 4).drop 4 = chunks.flatten.drop 8 := by
        rw [List.drop_drop]
      rw [← h, e4]; exact drop4_packI32_append _ _
    have e12 : chunks.flatten.drop 12 = blocks := by
      have h : (chunks.flatten.drop 8).drop 4 = chunks.flatten.drop 12 := by
        rw [List.drop_drop]
      rw [← h, e8]; exact drop4_packI32_append _ _
    unfold processReceiveChunk
    rw [if_pos hlen, hwire, take4_packI32_append, ← hwire, e4, take4_packI32_append,
      e8, take4_packI32_append, e12,
      unpack_packI32 x hx1 hx2, unpack_packI32 y hy1 hy2, unpack_packI32 z hz1 hz2]
  refine ⟨rest, ?_, ?_, ?_, ?_⟩
  · show handle_receive_chunk chunks = _
    rw [show handle_receive_chunk chunks = runHandler 4108 processReceiveChunk chunks
        from rfl, hok, htake, hdec]
  · rw [hjoin, ← hlen, List.drop_length]
  · simp [applyEvent, hcb]
  · simp [applyEvent, hcb]

theorem chunk_packet_enqueued_witness :
    ∃ rest, handle_packet 4
        [packI32 (-1) ++ (packI32 0 ++ (packI32 5 ++ List.replicate 4096 1))] =
      Except.ok (Event.chunk (-1) 0 5 (List.replicate 4096 1), rest) ∧
      rest.flatten = [] ∧
      applyEvent ⟨true, [], none, true, [], [0, 0], true⟩
          (Event.chunk (-1) 0 5 (List.replicate 4096 1)) =
        { (⟨true, [], none, true, [], [0, 0], true⟩ : LoopState) with
            queue := [] ++ [(((-1 : Int), (0 : Int), (5 : Int)), List.replicate 4096 1)] } ∧
      (applyEvent ⟨true, [], none, true, [], [0, 0], true⟩
          (Event.chunk (-1) 0 5 (List.replicate 4096 1))).voxelData =
        (⟨true, [], none, true, [], [0, 0], true⟩ : LoopState).voxelData :=
  chunk_packet_enqueued (-1) 0 5 (List.replicate 4096 1)
    [packI32 (-1) ++ (packI32 0 ++ (packI32 5 ++ List.replicate 4096 1))]
    ⟨true, [], none, true, [], [0, 0], true⟩
    (by decide) (by decide) (by decide) (by decide) (by decide) (by decide)
    (by rw [List.length_replicate])
    (by intro c hc
        rw [List.mem_singleton] at hc
        subst hc
        exact packI32_append_ne_nil _ _)
    (by rw [List.flatten_cons, List.flatten_nil, List.append_nil]) rfl

/-- Claim C5 counterexample: a byte slice of the wrong length does send the
handler into its length-mismatch branch, but nothing treats that as fatal:
the resulting outcome is only a logged error, applying it leaves the loop
state — including the `running` flag, the loop's sole continuation
condition — completely unchanged, so the connection goes on processing
subsequent packets. -/
theorem malformed_not_fatal_counterexample :
    processIdentification [7] = Event.lengthMismatch 0 ∧
    applyEvent ⟨true, [], none, false, [], [], true⟩ (Event.lengthMismatch 0) =
      ⟨true, [], none, false, [], [], true⟩ ∧
    (⟨true, [], none, false, [], [], true⟩ : LoopState).running = true :=
  ⟨by decide, rfl, rfl⟩

/-- Claim C5 (amended): for every packet kind, a byte slice whose length
differs from that kind's fixed width makes the handler take its
length-mismatch error branch (no decoded event is produced), but the
mismatch is only logged, not fatal: its outcome leaves the handler state
untouched (in particular the `running` flag stays set), and the receive
loop continues with the next packet.  (Through `recv_all` the branch is
in fact unreachable.) -/
theorem malformed_detected_not_fatal :
    (∀ d : List Nat, d.length ≠ 4 → processIdentification d = Event.lengthMismatch 0) ∧
    (∀ d : List Nat, d.length ≠ 88 → processAddEntity d = Event.lengthMismatch 1) ∧
    (∀ d : List Nat, d.length ≠ 4 → processRemoveEntity d = Event.lengthMismatch 2) ∧
    (∀ d : List Nat, d.length ≠ 24 → processUpdateEntity d = Event.lengthMismatch 3) ∧
    (∀ d : List Nat, d.length ≠ 4108 → processReceiveChunk d = Event.lengthMismatch 4) ∧
    (∀ d : List Nat, d.length ≠ 13 → processReceiveMonoTypeChunk d = Event.lengthMismatch 5) ∧
    (∀ d : List Nat, d.length ≠ 4096 → processChat d = Event.lengthMismatch 6) ∧
    (∀ d : List Nat, d.length ≠ 68 → processUpdateEntityMetadata d = Event.lengthMismatch 7) ∧
    (∀ (st : LoopState) (pid : Nat), applyEvent st (Event.lengthMismatch pid) = st) :=
  ⟨fun d hd => by simp [processIdentification, hd],
   fun d hd => by simp [processAddEntity, hd],
   fun d hd => by simp [processRemoveEntity, hd],
   fun d hd => by simp [processUpdateEntity, hd],
   fun d hd => by simp [processReceiveChunk, hd],
   fun d hd => by simp [processReceiveMonoTypeChunk, hd],
   fun d hd => by simp [processChat, hd],
   fun d hd => by simp [processUpdateEntityMetadata, hd],
   fun _ _ => rfl⟩

theorem malformed_detected_not_fatal_witness :
    processChat [1, 2, 3] = Event.lengthMismatch 6 ∧
    applyEvent ⟨false, [], none, false, [], [], false⟩ (Event.lengthMismatch 6) =
      ⟨false, [], none, false, [], [], false⟩ :=
  ⟨malformed_detected_not_fatal.2.2.2.2.2.2.1 [1, 2, 3] (by decide),
   malformed_detected_not_fatal.2.2.2.2.2.2.2.2 ⟨false, [], none, false, [], [], false⟩ 6⟩

/-- Claim C7 counterexample: at a concrete running state whose transport is
exhausted (the next read fails with the broken-connection error), the
receive loop does terminate and the socket is closed, but the consumer
queue is left exactly as it was — no terminal event is surfaced to the
consumer, contrary to the claim. -/
theorem broken_read_no_terminal_event :
    runLoop 1 ⟨true, [], none, true, [], [], true⟩ =
      RunResult.connectionBroken ⟨true, [], none, true, [], [], false⟩ ∧
    (⟨true, [], none, true, [], [], false⟩ : LoopState).queue = [] :=
  ⟨rfl, rfl⟩

/-- Claim C7 (amended): when a read fails with the broken-connection error
— either on the packet-ID byte or inside a payload read — the receive
loop terminates (the exception escapes the `while` loop, ending the
thread) and the `finally` block closes the connection; but no terminal
event is surfaced: the final state is the entry state with only the
socket marked closed, the consumer queue unchanged. -/
theorem broken_read_terminates (st : LoopState) (fuel : Nat)
    (hrun : st.running = true) :
    (∀ msg, recv_all st.chunks 1 = Except.error msg →
      runLoop (fuel + 1) st =
        RunResult.connectionBroken { st with socketOpen := false }) ∧
    (∀ idBytes rest msg, recv_all st.chunks 1 = Except.ok (idBytes, rest) →
      handle_packet (idBytes.headD 0) rest = Except.error msg →
      runLoop (fuel + 1) st =
        RunResult.connectionBroken { st with socketOpen := false }) ∧
    ({ st with socketOpen := false } : LoopState).queue = st.queue := by
  refine ⟨?_, ?_, rfl⟩
  · intro msg h
    simp [runLoop, hrun, h]
  · intro idBytes rest msg h1 h2
    rw [List.headD_eq_head?_getD] at h2
    simp [runLoop, hrun, h1, h2]

theorem broken_read_terminates_witness :
    runLoop 1 ⟨true, [[4], [0, 0]], none, true, [], [], true⟩ =
      RunResult.connectionBroken ⟨true, [[4], [0, 0]], none, true, [], [], false⟩ :=
  (broken_read_terminates ⟨true, [[4], [0, 0]], none, true, [], [], true⟩ 0 rfl).2.1
    [4] [[0, 0]] "Socket connection broken" rfl rfl

/-- Claim C8: `send_chat` always sends a message field of exactly 4096
bytes and `send_client_metadata` a name field of exactly 64 bytes —
right-padded with NUL bytes when the encoded string is shorter than the
field and truncated, never rejected, when longer; each full message is
the ID byte followed by that fixed-width payload. -/
theorem outbound_fixed_widths (m nm : List Nat) (rd : Nat) :
    (send_chat_payload m).length = 4096 ∧
    send_chat_payload m =
      (if m.length ≤ 4096 then m ++ List.replicate (4096 - m.length) 0
       else m.take 4096) ∧
    send_chat_message m = 3 :: send_chat_payload m ∧
    ((send_client_metadata_payload rd nm).drop 1).length = 64 ∧
    send_client_metadata_payload rd nm =
      (rd % 256) :: (if nm.length ≤ 64 then nm ++ List.replicate (64 - nm.length) 0
       else nm.take 64) ∧
    send_client_metadata_message rd nm = 4 :: send_client_metadata_payload rd nm := by
  have h5 : send_client_metadata_payload rd nm =
      (rd % 256) :: (if nm.length ≤ 64 then nm ++ List.replicate (64 - nm.length) 0
        else nm.take 64) := by
    unfold send_client_metadata_payload packU8 packFixedBytes ljustZeros
    by_cases hn : nm.length ≤ 64
    · rw [if_pos hn]
      have hl : (nm ++ List.replicate (64 - nm.length) 0).length = 64 := by
        simp only [List.length_append, List.length_replicate]; omega
      have ht : (nm ++ List.replicate (64 - nm.length) 0).take 64 =
          nm ++ List.replicate (64 - nm.length) 0 := by
        nth_rewrite 1 [← hl]
        rw [List.take_length]
      rw [ht, hl]
      simp
    · rw [if_neg hn]
      have h0 : 64 - nm.length = 0 := by omega
      rw [h0]
      simp [h0]
  refine ⟨?_, ?_, ?_, ?_, h5, ?_⟩
  · simp only [send_chat_payload, ljustZeros, List.length_take, List.length_append,
      List.length_replicate]
    omega
  · by_cases hm : m.length ≤ 4096
    · rw [send_chat_payload_of_le m hm, if_pos hm]
    · rw [if_neg hm]
      have h0 : 4096 - m.length = 0 := by omega
      simp [send_chat_payload, ljustZeros, h0]
  · rfl
  · rw [h5]
    by_cases hn : nm.length ≤ 64 <;>
      first
      | (simp [hn, List.length_take, List.length_append, List.length_replicate]; omega)
      | simp [hn, List.length_take, List.length_append, List.length_replicate]
  · rfl

theorem foldl_append_blockRecords (blocks : List (Nat × Int × Int × Int))
    (init : List Nat) :
    blocks.foldl (fun data b => data ++ blockRecord b) init =
      init ++ (blocks.map blockRecord).flatten := by
  induction blocks generalizing init with
  | nil => simp
  | cons b bs ih => simp [ih, List.append_assoc]

theorem blockRecord_length (b : Nat × Int × Int × Int) :
    (blockRecord b).length = 13 := by
  simp [blockRecord, packU8, packI32_length]

theorem flatten_map_blockRecord_length (blocks : List (Nat × Int × Int × Int)) :
    ((blocks.map blockRecord).flatten).length = 13 * blocks.length := by
  induction blocks with
  | nil => simp
  | cons b bs ih =>
    simp only [List.map_cons, List.flatten_cons, List.length_append,
      blockRecord_length, ih, List.length_cons]
    ring

/-- Claim C9: for every block list (the empty list included),
`send_block_bulk_edit` sends exactly one message: the ID byte 0x02, the
block count as big-endian uint32, then `count` fixed 13-byte records,
each laid out as the block-type byte followed by x, y, z as big-endian
int32; the payload length is 4 + 13·count. -/
theorem bulk_edit_layout (blocks : List (Nat × Int × Int × Int)) :
    send_block_bulk_edit_message blocks =
      2 :: (packU32 blocks.length ++ (blocks.map blockRecord).flatten) ∧
    (send_block_bulk_edit_payload blocks).length = 4 + 13 * blocks.length ∧
    ∀ b ∈ blocks, blockRecord b =
        (b.1 % 256) :: (packI32 b.2.1 ++ (packI32 b.2.2.1 ++ packI32 b.2.2.2)) ∧
      (blockRecord b).length = 13 := by
  have hp : send_block_bulk_edit_payload blocks =
      packU32 blocks.length ++ (blocks.map blockRecord).flatten :=
    foldl_append_blockRecords blocks _
  refine ⟨?_, ?_, ?_⟩
  · show send_packet 2 (send_block_bulk_edit_payload blocks) = _
    rw [hp]; rfl
  · rw [hp, List.length_append, flatten_map_blockRecord_length, packU32_length]
  · intro b _
    exact ⟨rfl, blockRecord_length b⟩

theorem bulk_edit_layout_witness :
    send_block_bulk_edit_message [(7, 1, -2, 3)] =
      2 :: (packU32 1 ++ (([(7, 1, -2, 3)] :
        List (Nat × Int × Int × Int)).map blockRecord).flatten) ∧
    (send_block_bulk_edit_payload [(7, 1, -2, 3)]).length = 4 + 13 * 1 ∧
    blockRecord (7, 1, -2, 3) =
        (7 % 256) :: (packI32 1 ++ (packI32 (-2) ++ packI32 3)) ∧
      (blockRecord ((7 : Nat), (1 : Int), (-2 : Int), (3 : Int))).length = 13 := by
  obtain ⟨h1, h2, h3⟩ := bulk_edit_layout [(7, 1, -2, 3)]
  exact ⟨h1, h2, (h3 _ (by simp)).1, (h3 _ (by simp)).2⟩

end VoxelBuster
